import Mathlib

/-!
Formalisation of `src/orbits/scratch.py`: a script that sweeps a
six-dimensional grid of orbital parameters, evaluates an external
sky-projected-separation routine at 1000 time samples for each of the 720
grid points, and thresholds the resulting table at 100.0.

Floating-point arrays are modelled over `ℝ`; the external routine
`_rsky._rsky` is modelled as an opaque function argument (`Sep` for the
pure model, `SepE` for the model in which the routine may raise).
-/

namespace Transits

noncomputable section

/-- Model of `np.linspace(lo, hi, n)`: `n` evenly spaced samples from `lo`
to `hi` inclusive, the `j`-th being `lo + j * (hi - lo) / (n - 1)`. -/
def linspace (lo hi : ℝ) (n : ℕ) : List ℝ :=
  (List.range n).map (fun j : ℕ => lo + (j : ℝ) * (hi - lo) / ((n : ℝ) - 1))

/-- Line 1: `t = np.linspace(-100, 100, 1000)`, the time axis. -/
def t : List ℝ := linspace (-100) 100 1000

/-- Line 6, first meshgrid input: `np.linspace(-5.0, 5.0, 2)`. -/
def t0Axis : List ℝ := linspace (-5.0) 5.0 2

/-- Line 7, second meshgrid input:
`np.exp(np.linspace(np.log(5.0), np.log(50.0), 3))`. -/
def periodAxis : List ℝ := (linspace (Real.log 5.0) (Real.log 50.0) 3).map Real.exp

/-- Line 8, third meshgrid input: `np.linspace(50.0, 100.0, 2)`. -/
def aAxis : List ℝ := linspace 50.0 100.0 2

/-- Line 9, fourth meshgrid input: `np.linspace(0.0, 0.9, 5)`. -/
def eAxis : List ℝ := linspace 0.0 0.9 5

/-- Line 10, fifth meshgrid input: `np.linspace(-np.pi, np.pi, 3)`. -/
def omegaAxis : List ℝ := linspace (-Real.pi) Real.pi 3

/-- Line 11, sixth meshgrid input: `np.arccos(np.linspace(0, 1, 5)[:-1])`,
the arccosines of the first four of five evenly spaced values in `[0, 1]`. -/
def inclAxis : List ℝ := ((linspace 0 1 5).dropLast).map Real.arccos

/-- One grid point, as the tuple `(t0, period, a, e, omega, incl)`. -/
abbrev Point : Type := ℝ × ℝ × ℝ × ℝ × ℝ × ℝ

/-- Default element used when reading a `Point` out of a list. -/
def pt0 : Point := (0, 0, 0, 0, 0, 0)

/-- Exchange of the first two components of a 6-tuple.  This is the shape
transposition performed by `np.meshgrid` with its default `indexing='xy'`,
which swaps the first two broadcast axes; it is an involution. -/
def swap12 (p : Point) : Point := (p.2.1, p.1, p.2.2)

/-- Lines 3-13: the six flattened outputs of
`np.meshgrid(t0Axis, periodAxis, aAxis, eAxis, omegaAxis, inclAxis)`,
assembled into one list of tuples `(t0, period, a, e, omega, incl)`.
With numpy's default `indexing='xy'` the broadcast outputs have shape
`(3, 2, 2, 5, 3, 4)` - the first two axes are swapped - so reading position
`i` of each flattened (C-order) output yields the `i`-th tuple of the
row-major cartesian product taken in the axis order
`(period, t0, a, e, omega, incl)`; `swap12` puts the components back into
the original argument order.  `l₁ ×ˢ l₂` is the row-major product of two
lists, second component varying fastest. -/
def grid : List Point :=
  (periodAxis ×ˢ t0Axis ×ˢ aAxis ×ˢ eAxis ×ˢ omegaAxis ×ˢ inclAxis).map swap12

/-- Flattened `t0` sequence (line 3). -/
def t0 : List ℝ := grid.map (fun p => p.1)

/-- Flattened `period` sequence (line 3). -/
def period : List ℝ := grid.map (fun p => p.2.1)

/-- Flattened `a` sequence (line 3). -/
def a : List ℝ := grid.map (fun p => p.2.2.1)

/-- Flattened `e` sequence (line 3). -/
def e : List ℝ := grid.map (fun p => p.2.2.2.1)

/-- Flattened `omega` sequence (line 3). -/
def omega : List ℝ := grid.map (fun p => p.2.2.2.2.1)

/-- Flattened `incl` sequence (line 3). -/
def incl : List ℝ := grid.map (fun p => p.2.2.2.2.2)

/-- Modelled from the spec: the cartesian product of the six axis value
lists, row-major (last axis fastest), in the axis order
`(t0, period, a, e, omega, incl)` that the specification asserts for the
flattening.  Kept separate from `grid`, which follows the source. -/
def specGrid : List Point :=
  t0Axis ×ˢ periodAxis ×ˢ aAxis ×ˢ eAxis ×ˢ omegaAxis ×ˢ inclAxis

/-- Signature of the external separation routine `_rsky._rsky`, restricted
to a single time sample: it receives the time sample, the six orbital
elements in the call order of line 18, and the two trailing constants. -/
abbrev Sep : Type := ℝ → ℝ → ℝ → ℝ → ℝ → ℝ → ℝ → ℝ → ℝ → ℝ

/-- Value written to row `row` of column `i` by lines 17-19:
`_rsky._rsky(t, t0[i], period[i], a[i], incl[i], e[i], omega[i], 1, 1)`
evaluated at the `row`-th time sample. -/
def colValue (sep : Sep) (row i : ℕ) : ℝ :=
  sep (t.getD row 0) (t0.getD i 0) (period.getD i 0) (a.getD i 0)
    (incl.getD i 0) (e.getD i 0) (omega.getD i 0) 1 1

/-- One iteration of the loop body (lines 17-19):
`r_batman[:, i] = _rsky._rsky(...)` overwrites column `i` of the table and
leaves every other entry unchanged. -/
def writeColumn (sep : Sep) (tab : ℕ → ℕ → ℝ) (i : ℕ) : ℕ → ℕ → ℝ :=
  fun row col => if col = i then colValue sep row i else tab row col

/-- Lines 14-19: `r_batman = np.empty((len(t), len(t0)))` followed by the
loop `for i in range(len(t0))`.  The uninitialised contents of `np.empty`
are the arbitrary `init` argument; the loop then writes the columns in
order. -/
def r_batman (sep : Sep) (init : ℕ → ℕ → ℝ) : ℕ → ℕ → ℝ :=
  (List.range t0.length).foldl (writeColumn sep) init

/-- Line 20: `m = r_batman < 100.0`, the elementwise strict-threshold
mask. -/
def m (sep : Sep) (init : ℕ → ℕ → ℝ) (row col : ℕ) : Prop :=
  r_batman sep init row col < 100.0

/-- Signature of the external routine in the fallible model: it receives
the whole time list (as in the actual vectorised call of line 17) and
either returns the column of separations or raises an error of type `ε`. -/
abbrev SepE (ε : Type) : Type :=
  List ℝ → ℝ → ℝ → ℝ → ℝ → ℝ → ℝ → ℝ → ℝ → Except ε (List ℝ)

/-- The call of lines 17-19 at grid point `i`, fallible model. -/
def callE {ε : Type} (sepE : SepE ε) (i : ℕ) : Except ε (List ℝ) :=
  sepE t (t0.getD i 0) (period.getD i 0) (a.getD i 0)
    (incl.getD i 0) (e.getD i 0) (omega.getD i 0) 1 1

/-- The loop of lines 16-19 when the external routine may raise:
iterations run in the order of the index list; a raised error aborts the
remaining iterations and propagates (Python exception semantics). -/
def sweepE {ε : Type} (sepE : SepE ε) : List ℕ → (ℕ → ℕ → ℝ) → Except ε (ℕ → ℕ → ℝ)
  | [], tab => .ok tab
  | i :: rest, tab =>
    match callE sepE i with
    | .error err => .error err
    | .ok c => sweepE sepE rest (fun row col => if col = i then c.getD row 0 else tab row col)

/-- The whole sweep in the fallible model. -/
def r_batmanE {ε : Type} (sepE : SepE ε) (init : ℕ → ℕ → ℝ) : Except ε (ℕ → ℕ → ℝ) :=
  sweepE sepE (List.range t0.length) init

end

/-! ### Helper lemmas: `linspace` and the axis value lists -/

lemma length_linspace (lo hi : ℝ) (n : ℕ) : (linspace lo hi n).length = n := by
  rw [linspace, List.length_map, List.length_range]

lemma getD_linspace (lo hi : ℝ) {n j : ℕ} (h : j < n) (d : ℝ) :
    (linspace lo hi n).getD j d = lo + j * (hi - lo) / ((n : ℝ) - 1) := by
  rw [linspace, List.getD_eq_getElem _ _ (by rw [List.length_map, List.length_range]; exact h)]
  simp only [List.getElem_map, List.getElem_range]

lemma t0Axis_eq : t0Axis = [-5, 5] := by
  norm_num [t0Axis, linspace, List.range_succ]

lemma aAxis_eq : aAxis = [50, 100] := by
  norm_num [aAxis, linspace, List.range_succ]

lemma eAxis_eq : eAxis = [0, 9 / 40, 9 / 20, 27 / 40, 9 / 10] := by
  norm_num [eAxis, linspace, List.range_succ]

lemma omegaAxis_eq : omegaAxis = [-Real.pi, 0, Real.pi] := by
  norm_num [omegaAxis, linspace, List.range_succ]

lemma periodAxis_eq :
    periodAxis = [5, Real.exp ((Real.log 5 + Real.log 50) / 2), 50] := by
  have h5 : Real.exp (Real.log 5) = 5 := Real.exp_log (by norm_num)
  have h50 : Real.exp (Real.log 50) = 50 := Real.exp_log (by norm_num)
  norm_num [periodAxis, linspace, List.range_succ]
  refine ⟨by simpa using h5, by ring_nf, by simpa [show Real.log 5 + (Real.log 50 - Real.log 5) = Real.log 50 by ring] using h50⟩

lemma inclAxis_eq :
    inclAxis = [Real.arccos 0, Real.arccos (1 / 4), Real.arccos (1 / 2), Real.arccos (3 / 4)] := by
  have hls : linspace 0 1 5 = [0, 1 / 4, 1 / 2, 3 / 4, 1] := by
    norm_num [linspace, List.range_succ]
  rw [inclAxis, hls]
  norm_num

/-! ### Helper lemmas: indexing into row-major cartesian products -/

lemma getD_map {α β : Type} (f : α → β) (l : List α) {i : ℕ} (hi : i < l.length)
    (d : β) (d' : α) : (l.map f).getD i d = f (l.getD i d') := by
  rw [List.getD_eq_getElem _ _ (by simpa using hi), List.getElem_map,
    List.getD_eq_getElem _ _ hi]

lemma getD_product {α β : Type} (A : List α) (T : List β) (x0 : α) (y0 : β) {i : ℕ}
    (hi : i < A.length * T.length) :
    (A ×ˢ T).getD i (x0, y0) = (A.getD (i / T.length) x0, T.getD (i % T.length) y0) := by
  induction A generalizing i with
  | nil => simp at hi
  | cons x A ih =>
    have hT : 0 < T.length := by
      rcases Nat.eq_zero_or_pos T.length with h0 | h0
      · rw [h0, Nat.mul_zero] at hi; exact absurd hi (Nat.not_lt_zero i)
      · exact h0
    rw [List.product_cons]
    by_cases hlt : i < T.length
    · rw [List.getD_append _ _ _ _ (by simpa using hlt),
        getD_map _ _ hlt _ y0, Nat.div_eq_of_lt hlt, Nat.mod_eq_of_lt hlt,
        List.getD_cons_zero]
    · push_neg at hlt
      rw [List.getD_append_right _ _ _ _ (by simpa using hlt), List.length_map]
      have hi' : i - T.length < A.length * T.length := by
        have hexp : (x :: A).length * T.length = A.length * T.length + T.length := by
          rw [List.length_cons]; ring
        rw [hexp] at hi
        omega
      rw [ih hi', Nat.div_eq_sub_div hT hlt, Nat.mod_eq_sub_mod hlt,
        List.getD_cons_succ]

lemma length_t0Axis : t0Axis.length = 2 := length_linspace _ _ _

lemma length_periodAxis : periodAxis.length = 3 := by
  rw [periodAxis, List.length_map, length_linspace]

lemma length_aAxis : aAxis.length = 2 := length_linspace _ _ _

lemma length_eAxis : eAxis.length = 5 := length_linspace _ _ _

lemma length_omegaAxis : omegaAxis.length = 3 := length_linspace _ _ _

lemma length_inclAxis : inclAxis.length = 4 := by
  rw [inclAxis, List.length_map, List.length_dropLast, length_linspace]

lemma length_grid : grid.length = 720 := by
  rw [grid, List.length_map]
  simp only [List.length_product, length_t0Axis, length_periodAxis, length_aAxis,
    length_eAxis, length_omegaAxis, length_inclAxis]

/-- Reading grid point `i` off the flattened meshgrid outputs: the index into
each axis value list is the corresponding digit of `i` in the mixed-radix
decomposition over the broadcast shape `(3, 2, 2, 5, 3, 4)`. -/
lemma getD_grid {i : ℕ} (hi : i < 720) :
    grid.getD i pt0 =
      (t0Axis.getD (i / 120 % 2) 0, periodAxis.getD (i / 240) 0,
       aAxis.getD (i / 60 % 2) 0, eAxis.getD (i / 12 % 5) 0,
       omegaAxis.getD (i / 4 % 3) 0, inclAxis.getD (i % 4) 0) := by
  have hgi : i < (periodAxis ×ˢ t0Axis ×ˢ aAxis ×ˢ eAxis ×ˢ omegaAxis ×ˢ inclAxis).length := by
    simp only [List.length_product, length_t0Axis, length_periodAxis, length_aAxis,
      length_eAxis, length_omegaAxis, length_inclAxis]
    exact lt_of_lt_of_le hi (by norm_num)
  have hL : (t0Axis ×ˢ aAxis ×ˢ eAxis ×ˢ omegaAxis ×ˢ inclAxis).length = 240 := by
    simp only [List.length_product, length_t0Axis, length_aAxis,
      length_eAxis, length_omegaAxis, length_inclAxis]
  have hL2 : (aAxis ×ˢ eAxis ×ˢ omegaAxis ×ˢ inclAxis).length = 120 := by
    simp only [List.length_product, length_aAxis,
      length_eAxis, length_omegaAxis, length_inclAxis]
  have hL3 : (eAxis ×ˢ omegaAxis ×ˢ inclAxis).length = 60 := by
    simp only [List.length_product, length_eAxis, length_omegaAxis, length_inclAxis]
  have hL4 : (omegaAxis ×ˢ inclAxis).length = 12 := by
    simp only [List.length_product, length_omegaAxis, length_inclAxis]
  have hL5 : inclAxis.length = 4 := length_inclAxis
  rw [grid, getD_map _ _ hgi _ ((0 : ℝ), (0 : ℝ), (0 : ℝ), (0 : ℝ), (0 : ℝ), (0 : ℝ))]
  rw [getD_product _ _ _ _ (by rw [length_periodAxis, hL]; exact lt_of_lt_of_le hi (by norm_num))]
  rw [hL]
  rw [getD_product _ _ _ _
    (by rw [length_t0Axis, hL2]; exact Nat.mod_lt _ (by norm_num))]
  rw [hL2]
  rw [getD_product _ _ _ _
    (by rw [length_aAxis, hL3]; exact Nat.mod_lt _ (by norm_num))]
  rw [hL3]
  rw [getD_product _ _ _ _
    (by rw [length_eAxis, hL4]; exact Nat.mod_lt _ (by norm_num))]
  rw [hL4]
  rw [getD_product _ _ _ _
    (by rw [length_omegaAxis, hL5]; exact Nat.mod_lt _ (by norm_num))]
  rw [hL5]
  rw [swap12]
  have e240 : (240 : ℕ) = 120 * 2 := by norm_num
  have e120 : (120 : ℕ) = 60 * 2 := by norm_num
  have e60 : (60 : ℕ) = 12 * 5 := by norm_num
  have e12 : (12 : ℕ) = 4 * 3 := by norm_num
  rw [show i % 240 / 120 = i / 120 % 2 by rw [e240, Nat.mod_mul_right_div_self],
    show i % 240 % 120 = i % 120 by rw [e240, Nat.mod_mul_right_mod],
    show i % 120 / 60 = i / 60 % 2 by rw [e120, Nat.mod_mul_right_div_self],
    show i % 120 % 60 = i % 60 by rw [e120, Nat.mod_mul_right_mod],
    show i % 60 / 12 = i / 12 % 5 by rw [e60, Nat.mod_mul_right_div_self],
    show i % 60 % 12 = i % 12 by rw [e60, Nat.mod_mul_right_mod],
    show i % 12 / 4 = i / 4 % 3 by rw [e12, Nat.mod_mul_right_div_self],
    show i % 12 % 4 = i % 4 by rw [e12, Nat.mod_mul_right_mod]]

/-! ### Helper lemmas: the six flattened sequences -/

lemma length_t0 : t0.length = 720 := by rw [t0, List.length_map, length_grid]

lemma length_period : period.length = 720 := by rw [period, List.length_map, length_grid]

lemma length_a : a.length = 720 := by rw [a, List.length_map, length_grid]

lemma length_e : e.length = 720 := by rw [e, List.length_map, length_grid]

lemma length_omega : omega.length = 720 := by rw [omega, List.length_map, length_grid]

lemma length_incl : incl.length = 720 := by rw [incl, List.length_map, length_grid]

lemma getD_t0 {i : ℕ} (hi : i < 720) : t0.getD i 0 = t0Axis.getD (i / 120 % 2) 0 := by
  rw [t0, getD_map _ _ (by rw [length_grid]; exact hi) _ pt0, getD_grid hi]

lemma getD_period {i : ℕ} (hi : i < 720) : period.getD i 0 = periodAxis.getD (i / 240) 0 := by
  rw [period, getD_map _ _ (by rw [length_grid]; exact hi) _ pt0, getD_grid hi]

lemma getD_a {i : ℕ} (hi : i < 720) : a.getD i 0 = aAxis.getD (i / 60 % 2) 0 := by
  rw [a, getD_map _ _ (by rw [length_grid]; exact hi) _ pt0, getD_grid hi]

lemma getD_e {i : ℕ} (hi : i < 720) : e.getD i 0 = eAxis.getD (i / 12 % 5) 0 := by
  rw [e, getD_map _ _ (by rw [length_grid]; exact hi) _ pt0, getD_grid hi]

lemma getD_omega {i : ℕ} (hi : i < 720) : omega.getD i 0 = omegaAxis.getD (i / 4 % 3) 0 := by
  rw [omega, getD_map _ _ (by rw [length_grid]; exact hi) _ pt0, getD_grid hi]

lemma getD_incl {i : ℕ} (hi : i < 720) : incl.getD i 0 = inclAxis.getD (i % 4) 0 := by
  rw [incl, getD_map _ _ (by rw [length_grid]; exact hi) _ pt0, getD_grid hi]

/-- Every grid point's components come from the corresponding axis value
lists. -/
lemma grid_components {p : Point} (hp : p ∈ grid) :
    p.1 ∈ t0Axis ∧ p.2.1 ∈ periodAxis ∧ p.2.2.1 ∈ aAxis ∧ p.2.2.2.1 ∈ eAxis ∧
      p.2.2.2.2.1 ∈ omegaAxis ∧ p.2.2.2.2.2 ∈ inclAxis := by
  rw [grid] at hp
  obtain ⟨q, hq, rfl⟩ := List.mem_map.1 hp
  obtain ⟨q1, q2, q3, q4, q5, q6⟩ := q
  simp only [List.mem_product] at hq
  simp only [swap12]
  exact ⟨hq.2.1, hq.1, hq.2.2.1, hq.2.2.2.1, hq.2.2.2.2.1, hq.2.2.2.2.2⟩

/-! ### Helper lemmas: evaluating the sweep loop -/

lemma foldl_writeColumn (sep : Sep) (l : List ℕ) (init : ℕ → ℕ → ℝ) (row col : ℕ) :
    (l.foldl (writeColumn sep) init) row col
      = if col ∈ l then colValue sep row col else init row col := by
  induction l generalizing init with
  | nil => simp
  | cons j l ih =>
    rw [List.foldl_cons, ih]
    by_cases h : col ∈ l
    · simp [h]
    · by_cases hj : col = j
      · subst hj
        simp [h, writeColumn]
      · simp [h, hj, writeColumn]

lemma r_batman_eval (sep : Sep) (init : ℕ → ℕ → ℝ) (row col : ℕ) :
    r_batman sep init row col = if col < 720 then colValue sep row col else init row col := by
  rw [r_batman, foldl_writeColumn, length_t0]
  simp only [List.mem_range]

lemma sweepE_all_ok {ε : Type} (sepE : SepE ε) :
    ∀ (l : List ℕ) (tab : ℕ → ℕ → ℝ), (∀ j ∈ l, ∃ c, callE sepE j = Except.ok c) →
      ∃ tab2, sweepE sepE l tab = Except.ok tab2 := by
  intro l
  induction l with
  | nil => exact fun tab _ => ⟨tab, rfl⟩
  | cons j l ih =>
    intro tab h
    obtain ⟨c, hc⟩ := h j (List.mem_cons_self j l)
    rw [sweepE, hc]
    exact ih _ (fun k hk => h k (List.mem_cons_of_mem j hk))

lemma sweepE_error_append {ε : Type} (sepE : SepE ε) (err : ε) :
    ∀ (l1 : List ℕ) (i : ℕ) (l2 : List ℕ) (tab : ℕ → ℕ → ℝ),
      (∀ j ∈ l1, ∃ c, callE sepE j = Except.ok c) → callE sepE i = Except.error err →
      sweepE sepE (l1 ++ i :: l2) tab = Except.error err := by
  intro l1
  induction l1 with
  | nil =>
    intro i l2 tab _ herr
    rw [List.nil_append, sweepE, herr]
  | cons j l1 ih =>
    intro i l2 tab hok herr
    obtain ⟨c, hc⟩ := hok j (List.mem_cons_self j l1)
    rw [List.cons_append, sweepE, hc]
    exact ih i l2 _ (fun k hk => hok k (List.mem_cons_of_mem j hk)) herr

/-- Splitting `List.range 720` at an index `i < 720`. -/
lemma range720_split {i : ℕ} (hi : i < 720) :
    List.range 720 = List.range i ++ i :: List.range' (i + 1) (719 - i) := by
  have h1 : List.range 720 = List.range' 0 720 := List.range_eq_range' 720
  have h2 : List.range i = List.range' 0 i := List.range_eq_range' i
  have h3 : List.range' 0 i ++ List.range' (0 + i) (720 - i) = List.range' 0 ((720 - i) + i) :=
    List.range'_append_1 0 i (720 - i)
  have h4 : List.range' (0 + i) (720 - i) = i :: List.range' (i + 1) (719 - i) := by
    rw [Nat.zero_add, show 720 - i = (719 - i) + 1 by omega, List.range'_succ]
  rw [h1, h2, show (720 : ℕ) = (720 - i) + i by omega, ← h3, h4]

/-! ### Helper lemmas: arithmetic facts about the axis values -/

lemma log5_lt_log50 : Real.log 5 < Real.log 50 :=
  Real.log_lt_log (by norm_num) (by norm_num)

lemma five_lt_expMid : 5 < Real.exp ((Real.log 5 + Real.log 50) / 2) := by
  have h := log5_lt_log50
  calc (5 : ℝ) = Real.exp (Real.log 5) := (Real.exp_log (by norm_num)).symm
    _ < Real.exp ((Real.log 5 + Real.log 50) / 2) := Real.exp_lt_exp.2 (by linarith)

lemma expMid_lt_fifty : Real.exp ((Real.log 5 + Real.log 50) / 2) < 50 := by
  have h := log5_lt_log50
  calc Real.exp ((Real.log 5 + Real.log 50) / 2)
      < Real.exp (Real.log 50) := Real.exp_lt_exp.2 (by linarith)
    _ = 50 := Real.exp_log (by norm_num)

lemma arccos_inj {u v : ℝ} (hu0 : -1 ≤ u) (hu1 : u ≤ 1) (hv0 : -1 ≤ v) (hv1 : v ≤ 1)
    (h : Real.arccos u = Real.arccos v) : u = v := by
  rw [← Real.cos_arccos hu0 hu1, ← Real.cos_arccos hv0 hv1, h]

lemma nodup_t0Axis : t0Axis.Nodup := by
  rw [t0Axis_eq]; norm_num

lemma nodup_periodAxis : periodAxis.Nodup := by
  have h1 := five_lt_expMid
  have h2 := expMid_lt_fifty
  rw [periodAxis_eq]
  refine List.nodup_cons.2 ⟨?_, List.nodup_cons.2 ⟨?_, List.nodup_singleton _⟩⟩
  · simp only [List.mem_cons, List.not_mem_nil, or_false]
    push_neg
    exact ⟨ne_of_lt h1, by norm_num⟩
  · simp only [List.mem_cons, List.not_mem_nil, or_false]
    exact ne_of_lt h2

lemma nodup_aAxis : aAxis.Nodup := by
  rw [aAxis_eq]; norm_num

lemma nodup_eAxis : eAxis.Nodup := by
  rw [eAxis_eq]; norm_num

lemma nodup_omegaAxis : omegaAxis.Nodup := by
  have hπ := Real.pi_pos
  rw [omegaAxis_eq]
  refine List.nodup_cons.2 ⟨?_, List.nodup_cons.2 ⟨?_, List.nodup_singleton _⟩⟩
  · simp only [List.mem_cons, List.not_mem_nil, or_false]
    push_neg
    exact ⟨by intro h; linarith, by intro h; linarith⟩
  · simp only [List.mem_cons, List.not_mem_nil, or_false]
    intro h; linarith

lemma arccos_ne {u v : ℝ} (hu0 : -1 ≤ u) (hu1 : u ≤ 1) (hv0 : -1 ≤ v) (hv1 : v ≤ 1)
    (hne : u ≠ v) : Real.arccos u ≠ Real.arccos v :=
  fun h => hne (arccos_inj hu0 hu1 hv0 hv1 h)

lemma nodup_inclAxis : inclAxis.Nodup := by
  rw [inclAxis_eq]
  refine List.nodup_cons.2 ⟨?_, List.nodup_cons.2 ⟨?_, List.nodup_cons.2
    ⟨?_, List.nodup_singleton _⟩⟩⟩
  · simp only [List.mem_cons, List.not_mem_nil, or_false]
    push_neg
    exact ⟨arccos_ne (by norm_num) (by norm_num) (by norm_num) (by norm_num) (by norm_num),
      arccos_ne (by norm_num) (by norm_num) (by norm_num) (by norm_num) (by norm_num),
      arccos_ne (by norm_num) (by norm_num) (by norm_num) (by norm_num) (by norm_num)⟩
  · simp only [List.mem_cons, List.not_mem_nil, or_false]
    push_neg
    exact ⟨arccos_ne (by norm_num) (by norm_num) (by norm_num) (by norm_num) (by norm_num),
      arccos_ne (by norm_num) (by norm_num) (by norm_num) (by norm_num) (by norm_num)⟩
  · simp only [List.mem_cons, List.not_mem_nil, or_false]
    exact arccos_ne (by norm_num) (by norm_num) (by norm_num) (by norm_num) (by norm_num)

/-! ### Helper lemmas: the grid as a multiset of tuples -/

lemma swap12_injective : Function.Injective swap12 := by
  intro p q h
  obtain ⟨p1, p2, p3⟩ := p
  obtain ⟨q1, q2, q3⟩ := q
  simp only [swap12, Prod.mk.injEq] at h
  obtain ⟨h1, h2, h3⟩ := h
  rw [h1, h2, h3]

lemma nodup_specGrid : specGrid.Nodup :=
  nodup_t0Axis.product (nodup_periodAxis.product (nodup_aAxis.product
    (nodup_eAxis.product (nodup_omegaAxis.product nodup_inclAxis))))

lemma nodup_grid : grid.Nodup :=
  List.Nodup.map swap12_injective
    (nodup_periodAxis.product (nodup_t0Axis.product (nodup_aAxis.product
      (nodup_eAxis.product (nodup_omegaAxis.product nodup_inclAxis)))))

lemma mem_grid {p : Point} :
    p ∈ grid ↔ (p.1 ∈ t0Axis ∧ p.2.1 ∈ periodAxis ∧ p.2.2.1 ∈ aAxis ∧
      p.2.2.2.1 ∈ eAxis ∧ p.2.2.2.2.1 ∈ omegaAxis ∧ p.2.2.2.2.2 ∈ inclAxis) := by
  constructor
  · exact grid_components
  · rintro ⟨h1, h2, h3, h4, h5, h6⟩
    rw [grid]
    refine List.mem_map.2 ⟨swap12 p, ?_, ?_⟩
    · obtain ⟨p1, p2, p3, p4, p5, p6⟩ := p
      simp only [swap12, List.mem_product]
      exact ⟨h2, h1, h3, h4, h5, h6⟩
    · obtain ⟨p1, p2, p3⟩ := p
      rfl

lemma mem_specGrid {p : Point} :
    p ∈ specGrid ↔ (p.1 ∈ t0Axis ∧ p.2.1 ∈ periodAxis ∧ p.2.2.1 ∈ aAxis ∧
      p.2.2.2.1 ∈ eAxis ∧ p.2.2.2.2.1 ∈ omegaAxis ∧ p.2.2.2.2.2 ∈ inclAxis) := by
  rw [specGrid]
  obtain ⟨p1, p2, p3, p4, p5, p6⟩ := p
  simp only [List.mem_product]

lemma grid_perm_specGrid : grid.Perm specGrid :=
  (List.perm_ext_iff_of_nodup nodup_grid nodup_specGrid).2
    (fun p => by rw [mem_grid, mem_specGrid])

/-! ### Claim theorems -/

/-- C1 (counterexample): the claim that, for every index `i`, the tuple
`(t0[i], period[i], a[i], e[i], omega[i], incl[i])` equals the `i`-th tuple
of the cartesian product in row-major order with axis order
`(t0, period, a, e, omega, incl)` fails at `i = 120`: the code's flattened
`t0[120]` is `5`, while the claimed product has `t0 = -5` there, because
`np.meshgrid`'s default indexing swaps the first two axes. -/
theorem C1_counterexample :
    ¬ ((t0.getD 120 0, period.getD 120 0, a.getD 120 0, e.getD 120 0,
        omega.getD 120 0, incl.getD 120 0) = specGrid.getD 120 pt0) := by
  intro h
  have h1 : t0.getD 120 0 = 5 := by
    rw [getD_t0 (by norm_num)]
    norm_num [t0Axis_eq]
  have h2 : (specGrid.getD 120 pt0).1 = -5 := by
    rw [specGrid, show pt0 = ((0 : ℝ), ((0 : ℝ), (0 : ℝ), (0 : ℝ), (0 : ℝ), (0 : ℝ))) from rfl]
    rw [getD_product _ _ _ _ (by
      simp only [List.length_product, length_t0Axis, length_periodAxis, length_aAxis,
        length_eAxis, length_omegaAxis, length_inclAxis]
      norm_num)]
    simp only [List.length_product, length_periodAxis, length_aAxis,
      length_eAxis, length_omegaAxis, length_inclAxis]
    norm_num [t0Axis_eq]
  have h3 := congrArg Prod.fst h
  simp only at h3
  rw [h1, h2] at h3
  norm_num at h3

/-- C1 (amended): for every `i < 720`, the tuple
`(t0[i], period[i], a[i], e[i], omega[i], incl[i])` equals the `i`-th tuple
of the row-major cartesian product of the six per-axis value lists taken
with the first two axes exchanged (axis order `period, t0, a, e, omega,
incl`, the broadcast order of `np.meshgrid`'s default indexing): the axis
indices are the mixed-radix digits of `i` over the shape
`(3, 2, 2, 5, 3, 4)`. -/
theorem C1_grid_flattening {i : ℕ} (hi : i < 720) :
    (t0.getD i 0, period.getD i 0, a.getD i 0, e.getD i 0, omega.getD i 0, incl.getD i 0)
      = (t0Axis.getD (i / 120 % 2) 0, periodAxis.getD (i / 240) 0,
         aAxis.getD (i / 60 % 2) 0, eAxis.getD (i / 12 % 5) 0,
         omegaAxis.getD (i / 4 % 3) 0, inclAxis.getD (i % 4) 0) := by
  rw [getD_t0 hi, getD_period hi, getD_a hi, getD_e hi, getD_omega hi, getD_incl hi]

/-- Witness for C1 (amended) at the concrete index `i = 130`. -/
theorem C1_grid_flattening_witness :
    (t0.getD 130 0, period.getD 130 0, a.getD 130 0, e.getD 130 0,
     omega.getD 130 0, incl.getD 130 0)
      = (5, 5, 50, 0, Real.pi, Real.arccos (1 / 2)) := by
  have h := C1_grid_flattening (show (130 : ℕ) < 720 by norm_num)
  rw [h]
  norm_num [t0Axis_eq, periodAxis_eq, aAxis_eq, eAxis_eq, omegaAxis_eq, inclAxis_eq]

/-- C2: the time axis has 1000 evenly spaced samples covering `[-100, 100]`,
the grid has 720 points, and for every in-range row and column the result
table entry is the external separation routine applied to the row's time
sample and the column's grid parameters in the order
`(t0, period, a, incl, e, omega)` followed by the constants `1, 1`,
whatever the (uninitialised) starting table was. -/
theorem C2_result_table :
    t.length = 1000 ∧ t0.length = 720 ∧
    (∀ row : ℕ, row < 1000 → t.getD row 0 = -100 + (row : ℝ) * 200 / 999) ∧
    (∀ (sep : Sep) (init : ℕ → ℕ → ℝ) (row col : ℕ), row < 1000 → col < 720 →
      r_batman sep init row col
        = sep (t.getD row 0) (t0.getD col 0) (period.getD col 0) (a.getD col 0)
            (incl.getD col 0) (e.getD col 0) (omega.getD col 0) 1 1) := by
  refine ⟨length_linspace _ _ _, length_t0, ?_, ?_⟩
  · intro row hrow
    rw [t, getD_linspace _ _ hrow]
    norm_num
  · intro sep init row col _ hcol
    rw [r_batman_eval, if_pos hcol]
    simp only [colValue]

/-- Witness for C2 at row 0, column 0, with a constant external routine. -/
theorem C2_result_table_witness :
    r_batman (fun _ _ _ _ _ _ _ _ _ => 3) (fun _ _ => 0) 0 0 = 3 :=
  C2_result_table.2.2.2 (fun _ _ _ _ _ _ _ _ _ => 3) (fun _ _ => 0) 0 0
    (by norm_num) (by norm_num)

/-- C3: the mask entry at `(row, col)` holds exactly when the result table
entry is strictly below `100.0`; in particular an entry equal to `100.0`
yields a false mask entry. -/
theorem C3_mask :
    ∀ (sep : Sep) (init : ℕ → ℕ → ℝ) (row col : ℕ),
      (m sep init row col ↔ r_batman sep init row col < 100.0) ∧
      (r_batman sep init row col = 100.0 → ¬ m sep init row col) := by
  intro sep init row col
  refine ⟨Iff.rfl, fun h hm => ?_⟩
  simp only [m] at hm
  rw [h] at hm
  exact lt_irrefl _ hm

/-- Witness for C3: a routine returning exactly `100` everywhere produces a
false mask entry at `(0, 0)`. -/
theorem C3_mask_witness :
    ¬ m (fun _ _ _ _ _ _ _ _ _ => 100) (fun _ _ => 0) 0 0 := by
  refine (C3_mask (fun _ _ _ _ _ _ _ _ _ => 100) (fun _ _ => 0) 0 0).2 ?_
  rw [r_batman_eval, if_pos (by norm_num : (0 : ℕ) < 720)]
  simp only [colValue]
  norm_num

/-- C4: the inclination axis has exactly 4 values, the `j`-th being the
arccosine of the `j`-th of 5 evenly spaced values in `[0, 1]` (the last,
whose arccosine would be 0, is dropped), and every value lies in
`(0, π/2]`. -/
theorem C4_incl_axis :
    inclAxis.length = 4 ∧
    (∀ j : ℕ, j < 4 → inclAxis.getD j 0 = Real.arccos ((linspace 0 1 5).getD j 0)) ∧
    (∀ x ∈ inclAxis, 0 < x ∧ x ≤ Real.pi / 2) := by
  refine ⟨length_inclAxis, ?_, ?_⟩
  · intro j hj
    have hls : linspace 0 1 5 = [0, 1 / 4, 1 / 2, 3 / 4, 1] := by
      norm_num [linspace, List.range_succ]
    rw [inclAxis_eq, hls]
    interval_cases j <;> norm_num
  · intro x hx
    rw [inclAxis_eq] at hx
    simp only [List.mem_cons, List.not_mem_nil, or_false] at hx
    rcases hx with h | h | h | h <;> subst h <;>
      exact ⟨Real.arccos_pos.2 (by norm_num), Real.arccos_le_pi_div_two.2 (by norm_num)⟩

/-- Witness for C4 at index 0 and at the member `arccos 0`. -/
theorem C4_incl_axis_witness :
    inclAxis.getD 0 0 = Real.arccos ((linspace 0 1 5).getD 0 0) ∧
    (0 < Real.arccos 0 ∧ Real.arccos 0 ≤ Real.pi / 2) :=
  ⟨C4_incl_axis.2.1 0 (by norm_num),
   C4_incl_axis.2.2 (Real.arccos 0) (by rw [inclAxis_eq]; exact List.mem_cons_self _ _)⟩

/-- C5: every flattened `t0` value lies in `[-5, 5]`, every `period` value
in `[5, 50]` with the period axis log-evenly spaced (exponentials of three
evenly spaced logarithms), every `a` value in `[50, 100]`, every `e` value
in `[0, 0.9]`, and every `omega` value in `[-π, π]`. -/
theorem C5_axis_bounds :
    (∀ x ∈ t0, -5 ≤ x ∧ x ≤ 5) ∧
    (∀ x ∈ period, 5 ≤ x ∧ x ≤ 50) ∧
    (∀ j : ℕ, j < 3 → periodAxis.getD j 0
        = Real.exp (Real.log 5 + (j : ℝ) * (Real.log 50 - Real.log 5) / 2)) ∧
    (∀ x ∈ a, 50 ≤ x ∧ x ≤ 100) ∧
    (∀ x ∈ e, 0 ≤ x ∧ x ≤ 0.9) ∧
    (∀ x ∈ omega, -Real.pi ≤ x ∧ x ≤ Real.pi) := by
  refine ⟨?_, ?_, ?_, ?_, ?_, ?_⟩
  · intro x hx
    rw [t0] at hx
    obtain ⟨p, hp, rfl⟩ := List.mem_map.1 hx
    have := (grid_components hp).1
    rw [t0Axis_eq] at this
    simp only [List.mem_cons, List.not_mem_nil, or_false] at this
    rcases this with h | h <;> rw [h] <;> norm_num
  · intro x hx
    rw [period] at hx
    obtain ⟨p, hp, rfl⟩ := List.mem_map.1 hx
    have := (grid_components hp).2.1
    rw [periodAxis_eq] at this
    simp only [List.mem_cons, List.not_mem_nil, or_false] at this
    rcases this with h | h | h <;> rw [h]
    · norm_num
    · exact ⟨le_of_lt five_lt_expMid, le_of_lt expMid_lt_fifty⟩
    · norm_num
  · intro j hj
    rw [periodAxis, getD_map _ _ (by rw [length_linspace]; exact hj) _ 0,
      getD_linspace _ _ hj]
    norm_num
  · intro x hx
    rw [a] at hx
    obtain ⟨p, hp, rfl⟩ := List.mem_map.1 hx
    have := (grid_components hp).2.2.1
    rw [aAxis_eq] at this
    simp only [List.mem_cons, List.not_mem_nil, or_false] at this
    rcases this with h | h <;> rw [h] <;> norm_num
  · intro x hx
    rw [e] at hx
    obtain ⟨p, hp, rfl⟩ := List.mem_map.1 hx
    have := (grid_components hp).2.2.2.1
    rw [eAxis_eq] at this
    simp only [List.mem_cons, List.not_mem_nil, or_false] at this
    rcases this with h | h | h | h | h <;> rw [h] <;> norm_num
  · intro x hx
    rw [omega] at hx
    obtain ⟨p, hp, rfl⟩ := List.mem_map.1 hx
    have := (grid_components hp).2.2.2.2.1
    rw [omegaAxis_eq] at this
    simp only [List.mem_cons, List.not_mem_nil, or_false] at this
    have hπ := Real.pi_pos
    rcases this with h | h | h <;> rw [h] <;>
      constructor <;> linarith

/-- Witness for C5 at the first flattened `t0` entry. -/
theorem C5_axis_bounds_witness : -5 ≤ t0.getD 0 0 ∧ t0.getD 0 0 ≤ 5 := by
  refine C5_axis_bounds.1 (t0.getD 0 0) ?_
  have h0 : (0 : ℕ) < t0.length := by rw [length_t0]; norm_num
  rw [List.getD_eq_getElem _ _ h0]
  exact List.getElem_mem h0

/-- C6: each of the six flattened parameter sequences has length exactly
720, the product `2 * 3 * 2 * 5 * 3 * 4` of the per-axis value counts. -/
theorem C6_grid_size :
    t0.length = 720 ∧ period.length = 720 ∧ a.length = 720 ∧ e.length = 720 ∧
    omega.length = 720 ∧ incl.length = 720 ∧
    t0Axis.length = 2 ∧ periodAxis.length = 3 ∧ aAxis.length = 2 ∧
    eAxis.length = 5 ∧ omegaAxis.length = 3 ∧ inclAxis.length = 4 ∧
    (720 : ℕ) = 2 * 3 * 2 * 5 * 3 * 4 :=
  ⟨length_t0, length_period, length_a, length_e, length_omega, length_incl,
   length_t0Axis, length_periodAxis, length_aAxis, length_eAxis, length_omegaAxis,
   length_inclAxis, by norm_num⟩

/-- C7: if the external routine succeeds at every grid point before `i` and
raises at grid point `i < 720`, the whole sweep fails with that error:
no mask is produced, nothing is retried, and no later column is reached. -/
theorem C7_fail_fast {ε : Type} (sepE : SepE ε) (init : ℕ → ℕ → ℝ) (i : ℕ) (err : ε)
    (hi : i < 720) (hok : ∀ j, j < i → ∃ c, callE sepE j = Except.ok c)
    (herr : callE sepE i = Except.error err) :
    r_batmanE sepE init = Except.error err := by
  rw [r_batmanE, length_t0, range720_split hi]
  exact sweepE_error_append sepE err (List.range i) i _ init
    (fun j hj => hok j (List.mem_range.1 hj)) herr

/-- Witness for C7: a routine that always raises makes the sweep fail at
grid point 0. -/
theorem C7_fail_fast_witness :
    r_batmanE (fun _ _ _ _ _ _ _ _ _ => Except.error 0) (fun _ _ => 0)
      = Except.error (0 : ℕ) :=
  C7_fail_fast _ _ 0 0 (by norm_num) (fun j hj => absurd hj (Nat.not_lt_zero j)) rfl

/-- C8: as a multiset, the 720 flattened parameter tuples are exactly the
cartesian product of the six axis value lists, each combination appearing
exactly once, independently of the flattening order. -/
theorem C8_grid_coverage : grid.Perm specGrid ∧ grid.Nodup :=
  ⟨grid_perm_specGrid, nodup_grid⟩

/-- C9: an iteration of the sweep writes only its own column, and running
the column iterations in any order yields the same result table. -/
theorem C9_column_independence :
    (∀ (sep : Sep) (tab : ℕ → ℕ → ℝ) (i row col : ℕ), col ≠ i →
      writeColumn sep tab i row col = tab row col) ∧
    (∀ (sep : Sep) (init : ℕ → ℕ → ℝ) (l : List ℕ), l.Perm (List.range t0.length) →
      ∀ row col : ℕ, l.foldl (writeColumn sep) init row col = r_batman sep init row col) := by
  constructor
  · intro sep tab i row col hne
    simp only [writeColumn, if_neg hne]
  · intro sep init l hperm row col
    rw [foldl_writeColumn, r_batman, foldl_writeColumn]
    simp only [hperm.mem_iff]

/-- Witness for C9: a write to column 0 leaves column 1 unchanged, and the
reversed iteration order produces the same table entry. -/
theorem C9_column_independence_witness :
    writeColumn (fun _ _ _ _ _ _ _ _ _ => 0) (fun _ _ => 7) 0 0 1 = 7 ∧
    (List.range t0.length).reverse.foldl
        (writeColumn (fun _ _ _ _ _ _ _ _ _ => 0)) (fun _ _ => 7) 3 5
      = r_batman (fun _ _ _ _ _ _ _ _ _ => 0) (fun _ _ => 7) 3 5 :=
  ⟨C9_column_independence.1 _ _ 0 0 1 (by norm_num),
   C9_column_independence.2 _ _ _ (List.reverse_perm _) 3 5⟩

/-- C10: the computation is a deterministic function of the external
routine: two runs with extensionally equal routines produce the same
result table and the same mask on the `(1000, 720)` shape, whatever junk
the uninitialised tables started with. -/
theorem C10_determinism (sep1 sep2 : Sep) (init1 init2 : ℕ → ℕ → ℝ)
    (hsep : ∀ x1 x2 x3 x4 x5 x6 x7 x8 x9,
      sep1 x1 x2 x3 x4 x5 x6 x7 x8 x9 = sep2 x1 x2 x3 x4 x5 x6 x7 x8 x9) :
    ∀ row col : ℕ, row < 1000 → col < 720 →
      r_batman sep1 init1 row col = r_batman sep2 init2 row col ∧
      (m sep1 init1 row col ↔ m sep2 init2 row col) := by
  intro row col _ hcol
  have heq : r_batman sep1 init1 row col = r_batman sep2 init2 row col := by
    rw [r_batman_eval, r_batman_eval, if_pos hcol, if_pos hcol]
    simp only [colValue]
    exact hsep _ _ _ _ _ _ _ _ _
  exact ⟨heq, by simp only [m, heq]⟩

/-- Witness for C10 with a shared routine and two different junk initial
tables. -/
theorem C10_determinism_witness :
    r_batman (fun _ _ _ _ _ _ _ _ _ => 0) (fun _ _ => 0) 0 0
      = r_batman (fun _ _ _ _ _ _ _ _ _ => 0) (fun _ _ => 9) 0 0 :=
  (C10_determinism _ _ _ _ (fun _ _ _ _ _ _ _ _ _ => rfl) 0 0
    (by norm_num) (by norm_num)).1

end Transits
